import Mathlib

/-!
Verification of the verigate-server OAuth 2.0 authorization server.

This file is a shallow embedding, in Lean, of the parts of the Go source
that the checked claims are about: the crypto primitives (PKCE S256), the
OAuth token service, the authorization-code grant, the web-session auth
service and the JWT validation paths.  Pure Go functions become Lean
functions; the database and cache become explicit state values threaded
through the operations; `time.Now()` becomes an explicit `now` argument;
each call to the random source becomes an explicit entropy argument.
Machine integers stay `Nat` with explicit `% 2 ^ 32` where the Go code
relies on 32-bit wraparound (SHA-256).
-/

namespace Crypto

/-- UTF-8 encoding of one character, as Go's `[]byte(string)` produces it. -/
def charUtf8 (c : Char) : List Nat :=
  let n := c.toNat
  if n < 128 then [n]
  else if n < 2048 then [192 ||| (n >>> 6), 128 ||| (n % 64)]
  else if n < 65536 then
    [224 ||| (n >>> 12), 128 ||| ((n >>> 6) % 64), 128 ||| (n % 64)]
  else
    [240 ||| (n >>> 18), 128 ||| ((n >>> 12) % 64), 128 ||| ((n >>> 6) % 64),
      128 ||| (n % 64)]

/-- The byte sequence of a Go string (`[]byte(s)`): UTF-8. -/
def strBytes (s : String) : List Nat :=
  (s.data.map charUtf8).flatten

/-- 32-bit right rotation. -/
def rotr (n x : Nat) : Nat :=
  ((x >>> n) ||| (x <<< (32 - n))) % 4294967296

/-- The 64 SHA-256 round constants. -/
def shaK : List Nat :=
  [1116352408, 1899447441, 3049323471, 3921009573, 961987163,
   1508970993, 2453635748, 2870763221, 3624381080, 310598401,
   607225278, 1426881987, 1925078388, 2162078206, 2614888103,
   3248222580, 3835390401, 4022224774, 264347078, 604807628,
   770255983, 1249150122, 1555081692, 1996064986, 2554220882,
   2821834349, 2952996808, 3210313671, 3336571891, 3584528711,
   113926993, 338241895, 666307205, 773529912, 1294757372,
   1396182291, 1695183700, 1986661051, 2177026350, 2456956037,
   2730485921, 2820302411, 3259730800, 3345764771, 3516065817,
   3600352804, 4094571909, 275423344, 430227734, 506948616,
   659060556, 883997877, 958139571, 1322822218, 1537002063,
   1747873779, 1955562222, 2024104815, 2227730452, 2361852424,
   2428436474, 2756734187, 3204031479, 3329325298]

/-- The eight initial SHA-256 hash words. -/
def shaInit : List Nat :=
  [1779033703, 3144134277, 1013904242, 2773480762,
   1359893119, 2600822924, 528734635, 1541459225]

/-- SHA-256 padding: append 0x80, zeros, then the 64-bit big-endian bit length. -/
def shaPad (msg : List Nat) : List Nat :=
  let len := msg.length
  let bitLen := len * 8
  let zeros := (120 - (len + 1) % 64) % 64
  msg ++ [0x80] ++ List.replicate zeros 0 ++
    [(bitLen >>> 56) % 256, (bitLen >>> 48) % 256, (bitLen >>> 40) % 256,
     (bitLen >>> 32) % 256, (bitLen >>> 24) % 256, (bitLen >>> 16) % 256,
     (bitLen >>> 8) % 256, bitLen % 256]

/-- Group bytes into big-endian 32-bit words. -/
def bytesToWords : List Nat → List Nat
  | a :: b :: c :: d :: rest =>
      ((a <<< 24) ||| (b <<< 16) ||| (c <<< 8) ||| d) :: bytesToWords rest
  | _ => []

/-- Split a list into chunks of 16 elements (one SHA-256 block of words). -/
def chunk16 : List Nat → List (List Nat)
  | w0 :: w1 :: w2 :: w3 :: w4 :: w5 :: w6 :: w7 ::
    w8 :: w9 :: w10 :: w11 :: w12 :: w13 :: w14 :: w15 :: rest =>
      [w0, w1, w2, w3, w4, w5, w6, w7, w8, w9, w10, w11, w12, w13, w14, w15] ::
        chunk16 rest
  | _ => []

/-- Message-schedule expansion of a 16-word block to 64 words. -/
def shaSchedule (w : Array Nat) : Array Nat :=
  (List.range 48).foldl (fun w i =>
    let t := i + 16
    let x15 := w.getD (t - 15) 0
    let x2 := w.getD (t - 2) 0
    let s0 := (rotr 7 x15) ^^^ (rotr 18 x15) ^^^ (x15 >>> 3)
    let s1 := (rotr 17 x2) ^^^ (rotr 19 x2) ^^^ (x2 >>> 10)
    w.push ((w.getD (t - 16) 0 + s0 + w.getD (t - 7) 0 + s1) % 4294967296)) w

/-- One SHA-256 compression round. -/
def shaRound (st : List Nat) (kw : Nat) : List Nat :=
  match st with
  | [a, b, c, d, e, f, g, h] =>
    let s1 := (rotr 6 e) ^^^ (rotr 11 e) ^^^ (rotr 25 e)
    let ch := (e &&& f) ^^^ ((4294967295 ^^^ e) &&& g)
    let t1 := (h + s1 + ch + kw) % 4294967296
    let s0 := (rotr 2 a) ^^^ (rotr 13 a) ^^^ (rotr 22 a)
    let maj := (a &&& b) ^^^ (a &&& c) ^^^ (b &&& c)
    let t2 := (s0 + maj) % 4294967296
    [(t1 + t2) % 4294967296, a, b, c, (d + t1) % 4294967296, e, f, g]
  | _ => st

/-- Process one 16-word block, updating the eight hash words. -/
def shaBlock (h : List Nat) (block : List Nat) : List Nat :=
  let w := shaSchedule block.toArray
  let kw := (List.range 64).map fun i => (shaK.getD i 0 + w.getD i 0) % 4294967296
  let st := kw.foldl shaRound h
  (List.zip h st).map fun p => (p.1 + p.2) % 4294967296

/-- SHA-256 of a byte sequence, as 32 bytes. -/
def sha256 (msg : List Nat) : List Nat :=
  let blocks := chunk16 (bytesToWords (shaPad msg))
  let final := blocks.foldl shaBlock shaInit
  final.foldr (fun w acc =>
    (w >>> 24) % 256 :: (w >>> 16) % 256 :: (w >>> 8) % 256 :: w % 256 :: acc) []

/-- The URL-safe base64 alphabet used by Go's `base64.RawURLEncoding`. -/
def b64Char (n : Nat) : Char :=
  "ABCDEFGHIJKLMNOPQRSTUVWXYZabcdefghijklmnopqrstuvwxyz0123456789-_".toList.getD n 'A'

/-- Unpadded URL-safe base64 encoding (Go `base64.RawURLEncoding.EncodeToString`). -/
def base64RawURL : List Nat → String
  | [] => ""
  | [a] => String.mk [b64Char (a >>> 2), b64Char ((a % 4) <<< 4)]
  | [a, b] =>
      String.mk [b64Char (a >>> 2), b64Char (((a % 4) <<< 4) ||| (b >>> 4)),
        b64Char ((b % 16) <<< 2)]
  | a :: b :: c :: rest =>
      String.mk [b64Char (a >>> 2), b64Char (((a % 4) <<< 4) ||| (b >>> 4)),
        b64Char ((((b % 16) <<< 2) ||| (c >>> 6))), b64Char (c % 64)] ++
      base64RawURL rest

end Crypto

namespace Pkce

open Crypto

/-- Embeds `pkce.VerifyCodeChallenge` (internal/pkg/utils/pkce): `plain`
compares byte-equal, `S256` compares the unpadded URL-safe base64 of the
SHA-256 of the verifier, any other method returns false. -/
def VerifyCodeChallenge (codeVerifier codeChallenge method : String) : Bool :=
  if method = "plain" then codeVerifier = codeChallenge
  else if method = "S256" then
    base64RawURL (sha256 (strBytes codeVerifier)) = codeChallenge
  else false

end Pkce

namespace Go

/-- Embeds Go's `strings.Split(s, " ")` (all separators in the source are
the single space): split at every space, keeping empty fields, so the
empty string yields `[""]`. -/
def splitCharList (sep : Char) : List Char → List (List Char)
  | [] => [[]]
  | c :: rest =>
    let r := splitCharList sep rest
    if c = sep then [] :: r
    else
      match r with
      | h :: t => (c :: h) :: t
      | [] => [[c]]

def splitOnSpace (s : String) : List String :=
  (splitCharList ' ' s.data).map String.mk

/-- Embeds Go's `strings.Contains(s, "?")` for the single-character
pattern used in the source. -/
def containsChar (s : String) (c : Char) : Bool :=
  s.data.contains c

/-- Embeds the `strings.ReplaceAll(s, " ", "+")` call of
`buildErrorRedirect`: with a single-character pattern and replacement it
replaces every space. -/
def replaceSpaces (s : String) : String :=
  String.mk (s.data.map fun c => if c = ' ' then '+' else c)

end Go

namespace Errors

/-- Embeds `errors.CustomError` (internal/pkg/utils/errors): an HTTP status
plus an opaque message. -/
structure CustomError where
  status : Nat
  message : String
deriving DecidableEq, Repr

def badRequest (message : String) : CustomError := ⟨400, message⟩

def unauthorized (message : String) : CustomError := ⟨401, message⟩

def forbidden (message : String) : CustomError := ⟨403, message⟩

def notFound (message : String) : CustomError := ⟨404, message⟩

def internal (message : String) : CustomError := ⟨500, message⟩

end Errors

namespace Hash

/-- Model of a bcrypt digest as produced by the external library
`golang.org/x/crypto/bcrypt` used by `hash.HashPassword`: the output string
embeds the salt that was drawn for this invocation, and two digests are
byte-equal exactly when both the salt and the hashed input coincide.  The
digest is modelled as the pair itself. -/
structure BcryptHash where
  salt : Nat
  password : String
deriving DecidableEq, Repr

/-- Embeds `hash.HashPassword` (internal/pkg/utils/hash): bcrypt with a
salt freshly drawn from the random source, made explicit as the `salt`
argument. -/
def HashPassword (salt : Nat) (password : String) : BcryptHash := ⟨salt, password⟩

/-- Embeds `hash.CompareHashAndPassword`: bcrypt verification recovers the
salt from the stored digest and compares; it succeeds exactly when the
plaintext matches the hashed input. -/
def CompareHashAndPassword (h : BcryptHash) (password : String) : Bool :=
  h.password = password

end Hash

namespace Token

/-- Embeds `token.AccessToken` (internal/app/token/model.go). -/
structure AccessToken where
  tokenID : String
  tokenHash : Hash.BcryptHash
  clientID : String
  userID : Nat
  scope : String
  expiresAt : Nat
  createdAt : Nat
  isRevoked : Bool
deriving DecidableEq, Repr

/-- Embeds `token.RefreshToken` (internal/app/token/model.go). -/
structure RefreshToken where
  tokenID : String
  tokenHash : Hash.BcryptHash
  accessTokenID : String
  clientID : String
  userID : Nat
  scope : String
  expiresAt : Nat
  createdAt : Nat
  isRevoked : Bool
deriving DecidableEq, Repr

/-- The persistent state behind `token.Repository`: the `access_tokens` and
`refresh_tokens` tables, plus the `authorization_code_tokens` association
rows queried by `RevokeAccessTokensByAuthCode` (each row a pair of
auth-code value and access-token id). -/
structure TokenStore where
  accessTokens : List AccessToken
  refreshTokens : List RefreshToken
  authCodeTokens : List (String × String)
deriving DecidableEq, Repr

/-- Embeds `token.TokenCreateResponse`. -/
structure TokenCreateResponse where
  accessToken : String
  tokenType : String
  expiresIn : Nat
  refreshToken : String
  scope : String
deriving DecidableEq, Repr

/-- One batch of draws from the random source consumed by
`token.Service.CreateTokens`: two uuids, the 32 random bytes of the opaque
refresh token (already base64-encoded), and the bcrypt salts of the two
`hash.HashPassword` calls. -/
structure Entropy where
  accessTokenID : String
  refreshTokenID : String
  refreshTokenValue : String
  accessSalt : Nat
  refreshSalt : Nat
deriving DecidableEq, Repr

/-- Embeds `token.Service.createAccessToken`: the RS256-signed JWT string
is modelled as a rendering of its claims `{jti, sub, aud, scope, iat, exp,
iss, type}`; no embedded operation inspects this string, it is only hashed
and returned. -/
def createAccessToken (now accessExpiry : Nat) (tokenID : String) (userID : Nat)
    (clientID scope : String) : String :=
  "jwt." ++ tokenID ++ "." ++ toString userID ++ "." ++ clientID ++ "." ++ scope ++
    "." ++ toString now ++ "." ++ toString (now + accessExpiry) ++ ".oauth-server.access"

/-- Embeds `token.Service.CreateTokens` (src/unnamed/part_026): mints an
access JWT and an opaque refresh token, persists both rows and returns the
RFC 6749 response.  The `authCode` parameter is accepted and, exactly as in
the source, never used: no association row is written. -/
def CreateTokens (accessExpiry refreshExpiry now : Nat) (e : Entropy) (st : TokenStore)
    (userID : Nat) (clientID scope authCode : String) :
    TokenCreateResponse × TokenStore :=
  let accessToken := createAccessToken now accessExpiry e.accessTokenID userID clientID scope
  let accessTokenHash := Hash.HashPassword e.accessSalt accessToken
  let refreshTokenHash := Hash.HashPassword e.refreshSalt e.refreshTokenValue
  let atm : AccessToken :=
    { tokenID := e.accessTokenID, tokenHash := accessTokenHash, clientID := clientID,
      userID := userID, scope := scope, expiresAt := now + accessExpiry,
      createdAt := now, isRevoked := false }
  let rtm : RefreshToken :=
    { tokenID := e.refreshTokenID, tokenHash := refreshTokenHash,
      accessTokenID := e.accessTokenID, clientID := clientID, userID := userID,
      scope := scope, expiresAt := now + refreshExpiry, createdAt := now,
      isRevoked := false }
  ({ accessToken := accessToken, tokenType := "Bearer", expiresIn := accessExpiry,
     refreshToken := e.refreshTokenValue, scope := scope },
   { st with accessTokens := st.accessTokens ++ [atm],
             refreshTokens := st.refreshTokens ++ [rtm] })

/-- Embeds `tokenRepository.FindRefreshTokenByHash` (postgres):
`SELECT … FROM refresh_tokens WHERE token_hash = $1`. -/
def FindRefreshTokenByHash (st : TokenStore) (tokenHash : Hash.BcryptHash) :
    Option RefreshToken :=
  st.refreshTokens.find? (fun t => t.tokenHash == tokenHash)

/-- Embeds `tokenRepository.RevokeRefreshToken`:
`UPDATE refresh_tokens SET is_revoked = true WHERE token_id = $1`, NotFound
when zero rows are affected. -/
def RevokeRefreshTokenRepo (st : TokenStore) (tokenID : String) :
    Except Errors.CustomError TokenStore :=
  if st.refreshTokens.any (fun t => t.tokenID == tokenID) then
    .ok { st with refreshTokens := st.refreshTokens.map fun t =>
            if t.tokenID == tokenID then { t with isRevoked := true } else t }
  else .error (Errors.notFound "refresh token not found")

/-- Embeds `tokenRepository.RevokeAccessToken`:
`UPDATE access_tokens SET is_revoked = true WHERE token_id = $1`, NotFound
when zero rows are affected. -/
def RevokeAccessTokenRepo (st : TokenStore) (tokenID : String) :
    Except Errors.CustomError TokenStore :=
  if st.accessTokens.any (fun t => t.tokenID == tokenID) then
    .ok { st with accessTokens := st.accessTokens.map fun t =>
            if t.tokenID == tokenID then { t with isRevoked := true } else t }
  else .error (Errors.notFound "access token not found")

/-- Embeds `tokenRepository.IsAccessTokenRevoked`: a missing row counts as
revoked. -/
def IsAccessTokenRevoked (st : TokenStore) (tokenID : String) :
    Except Errors.CustomError Bool :=
  match st.accessTokens.find? (fun t => t.tokenID == tokenID) with
  | none => .ok true
  | some t => .ok t.isRevoked

/-- Embeds `tokenRepository.RevokeAccessTokensByAuthCode`:
`UPDATE access_tokens SET is_revoked = true WHERE token_id IN (SELECT
token_id FROM authorization_code_tokens WHERE auth_code = $1)`. -/
def RevokeAccessTokensByAuthCode (st : TokenStore) (authCode : String) : TokenStore :=
  let ids := st.authCodeTokens.filterMap fun p =>
    if p.1 == authCode then some p.2 else none
  { st with accessTokens := st.accessTokens.map fun t =>
      if ids.contains t.tokenID then { t with isRevoked := true } else t }

/-- Embeds `token.Service.isScopeSubset`: every token of the space-split
`requested` string must occur among the space-split `existing` tokens. -/
def isScopeSubset (requested existing : String) : Bool :=
  (Go.splitOnSpace requested).all fun req => (Go.splitOnSpace existing).contains req

/-- Embeds `token.Service.RefreshTokens` (src/unnamed/part_026): hashes the
presented refresh token with a fresh bcrypt salt (`salt`), looks the row up
by hash equality, validates revocation, expiry, client binding and scope,
revokes the old pair and mints a new one. -/
def RefreshTokens (accessExpiry refreshExpiry now salt : Nat) (e : Entropy)
    (st : TokenStore) (refreshToken clientID requestedScope : String) :
    Except Errors.CustomError (TokenCreateResponse × TokenStore) :=
  let tokenHash := Hash.HashPassword salt refreshToken
  match FindRefreshTokenByHash st tokenHash with
  | none => .error (Errors.unauthorized "invalid token")
  | some token =>
    if token.isRevoked then .error (Errors.unauthorized "token has been revoked")
    else if now > token.expiresAt then .error (Errors.unauthorized "token has expired")
    else if token.clientID ≠ clientID then
      .error (Errors.unauthorized "refresh token was not issued to this client")
    else if requestedScope ≠ "" ∧ ¬ isScopeSubset requestedScope token.scope then
      .error (Errors.badRequest "requested scope exceeds original scope")
    else
      let scope := if requestedScope ≠ "" then requestedScope else token.scope
      match RevokeRefreshTokenRepo st token.tokenID with
      | .error err => .error err
      | .ok st1 =>
        let st2 :=
          if token.accessTokenID ≠ "" then
            match RevokeAccessTokenRepo st1 token.accessTokenID with
            | .ok s => s
            | .error _ => st1
          else st1
        .ok (CreateTokens accessExpiry refreshExpiry now e st2 token.userID
          token.clientID scope "")

/-- Embeds `token.Service.RevokeTokensByAuthCode`. -/
def RevokeTokensByAuthCode (st : TokenStore) (authCode : String) : TokenStore :=
  RevokeAccessTokensByAuthCode st authCode

end Token

namespace Client

/-- Embeds `client.Client` (internal/app/client/model.go); `clientSecret`
holds the stored bcrypt hash of the secret. -/
structure Client where
  clientID : String
  clientSecret : Hash.BcryptHash
  clientName : String
  redirectURIs : List String
  scope : String
  isConfidential : Bool
  isActive : Bool
  ownerID : Nat
deriving DecidableEq, Repr

/-- Embeds `clientRepository.FindByClientID`. -/
def FindByClientID (clients : List Client) (clientID : String) : Option Client :=
  clients.find? (fun c => c.clientID == clientID)

/-- Embeds `client.Service.ValidateClient` (internal/app/client/service.go):
missing or inactive clients fail; for confidential clients the presented
secret must verify against the stored hash; for public clients the secret
is not inspected. -/
def ValidateClient (clients : List Client) (clientID clientSecret : String) :
    Except Errors.CustomError Client :=
  match FindByClientID clients clientID with
  | none => .error (Errors.unauthorized "invalid client credentials")
  | some c =>
    if ¬ c.isActive then .error (Errors.unauthorized "client is not active")
    else if c.isConfidential ∧ ¬ Hash.CompareHashAndPassword c.clientSecret clientSecret then
      .error (Errors.unauthorized "invalid client credentials")
    else .ok c

/-- Embeds `oauth.Service.IsPublicClient` (src/unnamed/part_021). -/
def IsPublicClient (clients : List Client) (clientID : String) :
    Except Errors.CustomError Bool :=
  match FindByClientID clients clientID with
  | none => .error (Errors.notFound "client not found")
  | some c => .ok (¬ c.isConfidential)

/-- Embeds the client-authentication block of `oauth.Handler.Token`
(internal/app/oauth/handler.go, lines 111-131): a non-empty secret goes
through `ValidateClient`; an empty secret requires `IsPublicClient`; every
failure is answered with the `invalid_client` JSON error. -/
def TokenClientAuth (clients : List Client) (clientID clientSecret : String) :
    Except Errors.CustomError Unit :=
  if clientSecret ≠ "" then
    match ValidateClient clients clientID clientSecret with
    | .error _ => .error (Errors.unauthorized "invalid_client")
    | .ok _ => .ok ()
  else
    match IsPublicClient clients clientID with
    | .error _ => .error (Errors.unauthorized "invalid_client")
    | .ok isPublic =>
      if ¬ isPublic then .error (Errors.unauthorized "invalid_client") else .ok ()

end Client

namespace OAuth

/-- Embeds `oauth.AuthorizationCode` (internal/app/oauth/model.go). -/
structure AuthorizationCode where
  code : String
  clientID : String
  userID : Nat
  redirectURI : String
  scope : String
  codeChallenge : String
  codeChallengeMethod : String
  expiresAt : Nat
  createdAt : Nat
  isUsed : Bool
deriving DecidableEq, Repr

/-- Embeds `oauth.UserConsent`. -/
structure UserConsent where
  userID : Nat
  clientID : String
  scope : String
deriving DecidableEq, Repr

/-- Embeds `oauthRepository.FindAuthorizationCode`. -/
def FindAuthorizationCode (codes : List AuthorizationCode) (code : String) :
    Option AuthorizationCode :=
  codes.find? (fun ac => ac.code == code)

/-- Embeds `oauthRepository.MarkCodeAsUsed`
(internal/pkg/db/postgres/oauth_repository.go):
`UPDATE authorization_codes SET is_used = true WHERE code = $1`; NotFound
exactly when the update affected zero rows, i.e. when no row has this code
value.  The row count of the update is exposed by `markCodeAsUsedRows`. -/
def markCodeAsUsedRows (codes : List AuthorizationCode) (code : String) : Nat :=
  (codes.filter (fun ac => ac.code == code)).length

def MarkCodeAsUsed (codes : List AuthorizationCode) (code : String) :
    Except Errors.CustomError (List AuthorizationCode) :=
  let updated := codes.map fun ac =>
    if ac.code == code then { ac with isUsed := true } else ac
  if markCodeAsUsedRows codes code = 0 then
    .error (Errors.notFound "authorization code not found")
  else .ok updated

/-- Embeds `oauth.TokenRequest` (internal/app/oauth/dto.go). -/
structure TokenRequest where
  grantType : String
  code : String
  redirectURI : String
  clientID : String
  clientSecret : String
  refreshToken : String
  scope : String
  codeVerifier : String
deriving DecidableEq, Repr

/-- Embeds `oauth.TokenResponse`. -/
structure TokenResponse where
  accessToken : String
  tokenType : String
  expiresIn : Nat
  refreshToken : String
  scope : String
deriving DecidableEq, Repr

/-- Embeds `oauth.Service.handleAuthorizationCodeGrant`
(src/unnamed/part_021, lines 205-256): looks up the code; an already-used
code triggers `RevokeTokensByAuthCode` and fails `invalid_grant`; then
expiry, client binding, redirect binding and PKCE are checked, the code is
marked used and a token pair is minted.  Returns the response or error
together with the resulting code table and token store (the replay branch
mutates the token store even though it fails). -/
def handleAuthorizationCodeGrant (accessExpiry refreshExpiry now : Nat)
    (e : Token.Entropy) (codes : List AuthorizationCode) (ts : Token.TokenStore)
    (req : TokenRequest) :
    Except Errors.CustomError TokenResponse × (List AuthorizationCode × Token.TokenStore) :=
  if req.code = "" ∨ req.redirectURI = "" then
    (.error (Errors.badRequest "invalid_request"), (codes, ts))
  else
    match FindAuthorizationCode codes req.code with
    | none => (.error (Errors.badRequest "invalid_grant"), (codes, ts))
    | some authCode =>
      if authCode.isUsed then
        (.error (Errors.badRequest "invalid_grant"),
         (codes, Token.RevokeTokensByAuthCode ts req.code))
      else if now > authCode.expiresAt then
        (.error (Errors.badRequest "invalid_grant"), (codes, ts))
      else if authCode.clientID ≠ req.clientID then
        (.error (Errors.badRequest "invalid_grant"), (codes, ts))
      else if authCode.redirectURI ≠ req.redirectURI then
        (.error (Errors.badRequest "invalid_grant"), (codes, ts))
      else if authCode.codeChallenge ≠ "" ∧
          (req.codeVerifier = "" ∨
            ¬ Pkce.VerifyCodeChallenge req.codeVerifier authCode.codeChallenge
                authCode.codeChallengeMethod) then
        (.error (Errors.badRequest "invalid_grant"), (codes, ts))
      else
        match MarkCodeAsUsed codes req.code with
        | .error _ =>
            (.error (Errors.internal "failed to mark code as used"), (codes, ts))
        | .ok codes1 =>
          let (resp, ts1) := Token.CreateTokens accessExpiry refreshExpiry now e ts
            authCode.userID authCode.clientID authCode.scope req.code
          (.ok { accessToken := resp.accessToken, tokenType := resp.tokenType,
                 expiresIn := resp.expiresIn, refreshToken := resp.refreshToken,
                 scope := resp.scope },
           (codes1, ts1))

end OAuth

namespace Scope

/-- Embeds `scope.Service.ValidateScope` (internal/app/scope/service.go):
every space-split requested token must be among the allowed tokens and
must exist in the scope catalog. -/
def ValidateScope (catalog : List String) (requested allowed : String) : Bool :=
  let requestedScopes := Go.splitOnSpace requested
  let allowedScopes := Go.splitOnSpace allowed
  requestedScopes.all (fun r => allowedScopes.contains r) &&
    requestedScopes.all (fun r => catalog.contains r)

end Scope

namespace OAuth

/-- Embeds `oauth.AuthorizeRequest` (internal/app/oauth/dto.go). -/
structure AuthorizeRequest where
  responseType : String
  clientID : String
  redirectURI : String
  scope : String
  state : String
  codeChallenge : String
  codeChallengeMethod : String
deriving DecidableEq, Repr

/-- Embeds `oauthRepository.FindUserConsent`. -/
def FindUserConsent (consents : List UserConsent) (userID : Nat) (clientID : String) :
    Option UserConsent :=
  consents.find? (fun c => c.userID == userID && c.clientID == clientID)

/-- Embeds `oauth.Service.needsConsent` (src/unnamed/part_021): consent is
needed when no consent row exists or some requested scope token is not
among the consented tokens. -/
def needsConsent (consents : List UserConsent) (userID : Nat)
    (clientID scope : String) : Bool :=
  match FindUserConsent consents userID clientID with
  | none => true
  | some consent =>
      ¬ (Go.splitOnSpace scope).all fun req =>
          (Go.splitOnSpace consent.scope).contains req

/-- Embeds `oauth.Service.Authorize` (src/unnamed/part_021): validates the
response type, the client, the redirect URI, the PKCE method and the scope,
then either signals `consent_required` (status 302) or saves and returns a
fresh authorization code (`newCode` stands for the draw from the random
source). -/
def Authorize (clients : List Client.Client) (catalog : List String)
    (consents : List UserConsent) (now : Nat) (newCode : String)
    (codes : List AuthorizationCode) (req : AuthorizeRequest) (userID : Nat) :
    Except Errors.CustomError String × List AuthorizationCode :=
  if req.responseType ≠ "code" then
    (.error (Errors.badRequest "unsupported_response_type"), codes)
  else
    match Client.FindByClientID clients req.clientID with
    | none => (.error (Errors.badRequest "invalid_client"), codes)
    | some client =>
      if ¬ client.isActive then (.error (Errors.badRequest "invalid_client"), codes)
      else if ¬ client.redirectURIs.contains req.redirectURI then
        (.error (Errors.badRequest "invalid_redirect_uri"), codes)
      else if req.codeChallengeMethod ≠ "" ∧ req.codeChallengeMethod ≠ "plain" ∧
          req.codeChallengeMethod ≠ "S256" then
        (.error (Errors.badRequest "invalid_code_challenge_method"), codes)
      else
        let requestedScope := if req.scope = "" then "profile" else req.scope
        if ¬ Scope.ValidateScope catalog requestedScope client.scope then
          (.error (Errors.badRequest "invalid_scope"), codes)
        else if needsConsent consents userID req.clientID requestedScope then
          (.error ⟨302, "consent_required"⟩, codes)
        else
          let authCode : AuthorizationCode :=
            { code := newCode, clientID := req.clientID, userID := userID,
              redirectURI := req.redirectURI, scope := requestedScope,
              codeChallenge := req.codeChallenge,
              codeChallengeMethod := req.codeChallengeMethod,
              expiresAt := now + 600, createdAt := now, isUsed := false }
          (.ok newCode, codes ++ [authCode])

/-- What the `oauth.Handler.Authorize` endpoint does with the user agent:
either a 302 redirect to some URL or a JSON error body. -/
inductive AuthorizeOutcome
  | redirectTo (url : String)
  | jsonError (status : Nat) (error errorDescription : String)
deriving DecidableEq, Repr

/-- Embeds `oauth.Handler.buildRedirectURL`. -/
def buildRedirectURL (redirectURI code state : String) : String :=
  let separator := if Go.containsChar redirectURI '?' then "&" else "?"
  let result := redirectURI ++ separator ++ "code=" ++ code
  if state ≠ "" then result ++ "&state=" ++ state else result

/-- Embeds `oauth.Handler.buildErrorRedirect`. -/
def buildErrorRedirect (redirectURI state errorCode errorDesc : String) : String :=
  let separator := if Go.containsChar redirectURI '?' then "&" else "?"
  let result := redirectURI ++ separator ++ "error=" ++ errorCode
  let result :=
    if errorDesc ≠ "" then
      result ++ "&error_description=" ++ Go.replaceSpaces errorDesc
    else result
  if state ≠ "" then result ++ "&state=" ++ state else result

/-- Embeds `oauth.Handler.redirectError` (internal/app/oauth/handler.go,
lines 358-368): the error is sent as a JSON body only when the supplied
redirect URI is empty; otherwise the user agent is 302-redirected to it. -/
def redirectError (redirectURI state errorCode errorDesc : String) : AuthorizeOutcome :=
  if redirectURI = "" then .jsonError 400 errorCode errorDesc
  else .redirectTo (buildErrorRedirect redirectURI state errorCode errorDesc)

/-- Embeds `oauth.Handler.buildConsentURL`. -/
def buildConsentURL (req : AuthorizeRequest) : String :=
  let params := ["client_id=" ++ req.clientID, "redirect_uri=" ++ req.redirectURI,
    "scope=" ++ req.scope, "state=" ++ req.state]
  let params :=
    if req.codeChallenge ≠ "" then
      params ++ ["code_challenge=" ++ req.codeChallenge,
        "code_challenge_method=" ++ req.codeChallengeMethod]
    else params
  "/oauth/consent?" ++ String.intercalate "&" params

/-- Embeds `oauth.Handler.Authorize` (internal/app/oauth/handler.go, lines
59-85): runs the service; a 302 error redirects to the consent page, any
other service error goes through `redirectError`, success redirects with
the code. -/
def HandlerAuthorize (clients : List Client.Client) (catalog : List String)
    (consents : List UserConsent) (now : Nat) (newCode : String)
    (codes : List AuthorizationCode) (req : AuthorizeRequest) (userID : Nat) :
    AuthorizeOutcome × List AuthorizationCode :=
  match Authorize clients catalog consents now newCode codes req userID with
  | (.ok code, codes1) => (.redirectTo (buildRedirectURL req.redirectURI code req.state), codes1)
  | (.error e, codes1) =>
    if e.status = 302 then (.redirectTo (buildConsentURL req), codes1)
    else (redirectError req.redirectURI req.state "server_error" e.message, codes1)

end OAuth

namespace Jwt

/-- The claim set carried by the JWTs this server mints (`jwt.MapClaims`
literals in the source).  Claims a minting site does not write are `none`;
`userId` is the custom `user_id` claim.  A present `sub` claim is always
the JSON *number* `userID` (every mint site writes `"sub": userID` with
`userID uint`); no code in this repository ever writes `sub` as a JSON
string. -/
structure MapClaims where
  jti : String
  sub : Option Nat
  aud : Option String
  scope : Option String
  iat : Int
  exp : Int
  iss : String
  type : Option String
  userId : Option Nat
deriving DecidableEq, Repr

/-- Model of an RS256-signed JWT from the external `golang-jwt` library:
the claim set, the header `alg`, and the identifier of the RSA key pair
that signed it.  Signature verification succeeds exactly when the
verifying public key belongs to the signing pair. -/
structure SignedJwt where
  claims : MapClaims
  alg : String
  key : Nat
deriving DecidableEq, Repr

/-- The standard validation performed by `jwt.Parse`/`jwt.ParseWithClaims`
with an RSA-only key callback, as used throughout
internal/pkg/utils/jwt/jwt.go: the header alg must be an RSA method, the
signature must verify under the configured public key, and the `exp`/`iat`
claims must bracket the current time. -/
def parseValid (pubKey : Nat) (now : Int) (t : SignedJwt) : Bool :=
  t.alg = "RS256" && t.key == pubKey && now < t.claims.exp && t.claims.iat ≤ now

/-- The claims structure `jwt.Claims` is decoded into by `ParseWithClaims`:
`UserID` comes from the `user_id` JSON field (Go zero value 0 when the
claim is absent) and `TokenType` from `type`. -/
structure ParsedClaims where
  userID : Nat
  tokenType : String
  issuer : String
deriving DecidableEq, Repr

/-- The typed-claims JSON decode `ParseWithClaims` performs for
`jwt.ValidateToken` (golang-jwt v4): the claim JSON is decoded into
`Claims{UserID uint "user_id"; TokenType "type"; jwt.RegisteredClaims}`,
whose `Subject` field is a Go string.  `encoding/json` refuses to decode a
JSON number into a string field, and a present `sub` claim is always the
JSON number `userID` in this embedding (see `MapClaims`), so the decode
fails (ValidationErrorMalformed) exactly when `sub` is present; all other
claims this server writes decode cleanly (absent `user_id` becomes the Go
zero value 0). -/
def decodeTypedClaims (c : MapClaims) : Except Errors.CustomError ParsedClaims :=
  match c.sub with
  | some _ => .error (Errors.unauthorized "invalid token")
  | none =>
      .ok { userID := c.userId.getD 0, tokenType := c.type.getD "",
            issuer := c.iss }

/-- Embeds `jwt.ValidateToken` (internal/pkg/utils/jwt/jwt.go, lines
81-98): `ParseWithClaims` first JSON-decodes the claims into the typed
`Claims` struct — failing on a numeric `sub` before the key callback and
signature check run — then validates signature, alg and time.  No
revocation or issuer check is made.  The library's distinct error values
are collapsed to one here; every caller in the source maps them all to
the same Unauthorized response. -/
def ValidateToken (pubKey : Nat) (now : Int) (t : SignedJwt) :
    Except Errors.CustomError ParsedClaims :=
  match decodeTypedClaims t.claims with
  | .error e => .error e
  | .ok pc =>
    if parseValid pubKey now t then .ok pc
    else .error (Errors.unauthorized "invalid token")

/-- Embeds `jwt.ValidateAccessTokenWithClaims`: `jwt.Parse` decodes into
the lenient `jwt.MapClaims` map (numbers stay numbers, so a numeric `sub`
is no obstacle here, unlike the typed decode of `ValidateToken`), then
verifies signature, alg and time; then the `type` claim must be
`"access"`, the `iss` claim must equal the expected issuer, and the user
id is extracted from the custom `user_id` claim. -/
def ValidateAccessTokenWithClaims (pubKey : Nat) (now : Int) (t : SignedJwt)
    (expectedIssuer : String) : Except Errors.CustomError Nat :=
  if ¬ parseValid pubKey now t then .error (Errors.unauthorized "invalid token")
  else if t.claims.type ≠ some "access" then
    .error (Errors.unauthorized "invalid token type")
  else if t.claims.iss ≠ expectedIssuer then
    .error (Errors.unauthorized "invalid token issuer")
  else
    match t.claims.userId with
    | none => .error (Errors.unauthorized "invalid user ID in token")
    | some u => .ok u

end Jwt

namespace Middleware

/-- Embeds the validation step of `middleware.Auth`
(internal/pkg/middleware/auth.go, lines 41-63), the guard of the OAuth
protected routes including GET /oauth/userinfo: after extracting the
bearer token it calls `jwt.ValidateToken` and, on success, stores the user
id in the request context and lets the request proceed.  It consults no
token store. -/
def Auth (pubKey : Nat) (now : Int) (t : Jwt.SignedJwt) :
    Except Errors.CustomError Nat :=
  match Jwt.ValidateToken pubKey now t with
  | .error _ => .error (Errors.unauthorized "invalid token")
  | .ok claims => .ok claims.userID

/-- The validation the spec (§4.8) and claim C6 describe for the UserInfo
guard, written from the spec's words for comparison with the `Auth`
middleware the source actually installs: verify signature and exp, then
look up the jti revocation flag and reject revoked tokens, returning the
subject on success. -/
def specValidateAccess (pubKey : Nat) (now : Int) (st : Token.TokenStore)
    (t : Jwt.SignedJwt) : Except Errors.CustomError Nat :=
  if ¬ Jwt.parseValid pubKey now t then .error (Errors.unauthorized "invalid token")
  else
    match Token.IsAccessTokenRevoked st t.claims.jti with
    | .error e => .error e
    | .ok true => .error (Errors.unauthorized "token has been revoked")
    | .ok false => .ok (t.claims.sub.getD 0)

end Middleware

namespace Auth

/-- Embeds `auth.RefreshToken` (internal/app/auth/model.go): the web realm
refresh-token row; `token` holds the bcrypt hash of the opaque value. -/
structure RefreshToken where
  id : String
  userID : Nat
  token : Hash.BcryptHash
  expiresAt : Int
  createdAt : Int
  isRevoked : Bool
  userAgent : String
  ipAddress : String
deriving DecidableEq, Repr

/-- Embeds `auth.TokenPair`. -/
structure TokenPair where
  accessToken : Jwt.SignedJwt
  refreshToken : String
  accessTokenExpiresAt : Int
  refreshTokenExpiresAt : Int
deriving DecidableEq, Repr

/-- One batch of draws from the random source consumed by
`auth.Service.CreateTokenPair`: the jti uuid, the refresh-token row id,
the 32 random bytes of the refresh token (base64-encoded) and the bcrypt
salt of its hash. -/
structure Entropy where
  tokenID : String
  refreshTokenID : String
  refreshTokenValue : String
  refreshSalt : Nat
deriving DecidableEq, Repr

/-- Embeds `auth.Service.CreateTokenPair` (internal/app/auth/service.go,
lines 73-131): mints the access JWT with the claims literal
`{jti, sub, iat, exp, iss = "verigate-web", type = "access"}` (no
`user_id` claim is written), generates and hashes the opaque refresh
token, and persists the refresh row. -/
def CreateTokenPair (privKey : Nat) (accessExpiry refreshExpiry now : Int)
    (e : Entropy) (st : List RefreshToken) (userID : Nat)
    (userAgent ipAddress : String) : TokenPair × List RefreshToken :=
  let claims : Jwt.MapClaims :=
    { jti := e.tokenID, sub := some userID, aud := none, scope := none, iat := now,
      exp := now + accessExpiry, iss := "verigate-web", type := some "access",
      userId := none }
  let accessToken : Jwt.SignedJwt := { claims := claims, alg := "RS256", key := privKey }
  let hashedRefreshToken := Hash.HashPassword e.refreshSalt e.refreshTokenValue
  let row : RefreshToken :=
    { id := e.refreshTokenID, userID := userID, token := hashedRefreshToken,
      expiresAt := now + refreshExpiry, createdAt := now, isRevoked := false,
      userAgent := userAgent, ipAddress := ipAddress }
  ({ accessToken := accessToken, refreshToken := e.refreshTokenValue,
     accessTokenExpiresAt := now + accessExpiry,
     refreshTokenExpiresAt := now + refreshExpiry },
   st ++ [row])

/-- Embeds `authRepository.FindRefreshTokenByToken`
(internal/pkg/db/redis/auth_repository.go): scans the stored rows and
returns the first whose bcrypt hash verifies against the presented plain
text. -/
def FindRefreshTokenByToken (st : List RefreshToken) (plainTextToken : String) :
    Option RefreshToken :=
  st.find? (fun t => Hash.CompareHashAndPassword t.token plainTextToken)

/-- Embeds `authRepository.RevokeRefreshToken`: marks the row with this id
revoked; NotFound when no such row exists. -/
def RevokeRefreshTokenRepo (st : List RefreshToken) (tokenID : String) :
    Except Errors.CustomError (List RefreshToken) :=
  if st.any (fun t => t.id == tokenID) then
    .ok (st.map fun t => if t.id == tokenID then { t with isRevoked := true } else t)
  else .error (Errors.notFound "refresh token not found")

/-- Embeds `authRepository.RevokeAllUserRefreshTokens`
(internal/pkg/db/redis/auth_repository.go, lines 164-182): revokes every
stored refresh token of the user, ignoring individual failures. -/
def RevokeAllUserRefreshTokens (st : List RefreshToken) (userID : Nat) :
    List RefreshToken :=
  st.map fun t => if t.userID == userID then { t with isRevoked := true } else t

/-- Embeds `auth.Service.RefreshTokens` (internal/app/auth/service.go,
lines 135-164): finds the presented token by hash comparison; a revoked
row triggers the family kill and fails; an expired row fails; otherwise
the presented row is revoked and a fresh pair is minted.  The resulting
store is returned alongside, because the reuse-detection branch mutates it
even though it fails. -/
def RefreshTokens (privKey : Nat) (accessExpiry refreshExpiry now : Int)
    (e : Entropy) (st : List RefreshToken) (refreshToken userAgent ipAddress : String) :
    Except Errors.CustomError TokenPair × List RefreshToken :=
  match FindRefreshTokenByToken st refreshToken with
  | none => (.error (Errors.unauthorized "invalid refresh token"), st)
  | some token =>
    if token.isRevoked then
      (.error (Errors.unauthorized "refresh token has been revoked"),
       RevokeAllUserRefreshTokens st token.userID)
    else if now > token.expiresAt then
      (.error (Errors.unauthorized "refresh token has expired"), st)
    else
      match RevokeRefreshTokenRepo st token.id with
      | .error err => (.error err, st)
      | .ok st1 =>
        let (pair, st2) := CreateTokenPair privKey accessExpiry refreshExpiry now e
          st1 token.userID userAgent ipAddress
        (.ok pair, st2)

end Auth

section Fixtures

/-- An already-consumed authorization code row. -/
def usedCodeRow : OAuth.AuthorizationCode :=
  { code := "CODE", clientID := "abc", userID := 7,
    redirectURI := "https://app.test/cb", scope := "profile", codeChallenge := "",
    codeChallengeMethod := "", expiresAt := 600, createdAt := 0, isUsed := true }

def c2e1 : Token.Entropy := ⟨"at1", "rt1", "RT1VALUE", 0, 1⟩

def c2e2 : Token.Entropy := ⟨"at2", "rt2", "RT2VALUE", 2, 3⟩

/-- A token pair issued by `Token.CreateTokens` from an empty store at
time 0 for user 7, client "abc", scope "profile". -/
def c2Issued : Token.TokenCreateResponse × Token.TokenStore :=
  Token.CreateTokens 900 604800 0 c2e1 ⟨[], [], []⟩ 7 "abc" "profile" "CODE"

def c3Code : OAuth.AuthorizationCode :=
  { code := "CODE", clientID := "abc", userID := 7,
    redirectURI := "https://app.test/cb", scope := "profile", codeChallenge := "",
    codeChallengeMethod := "", expiresAt := 600, createdAt := 0, isUsed := false }

def c3Req : OAuth.TokenRequest :=
  { grantType := "authorization_code", code := "CODE",
    redirectURI := "https://app.test/cb", clientID := "abc", clientSecret := "",
    refreshToken := "", scope := "", codeVerifier := "" }

/-- First exchange of the code: succeeds and mints tokens. -/
def c3Run1 := OAuth.handleAuthorizationCodeGrant 900 604800 10 ⟨"at1", "rt1", "RT1", 0, 1⟩
  [c3Code] ⟨[], [], []⟩ c3Req

/-- Replay of the same code against the state left by the first exchange. -/
def c3Run2 := OAuth.handleAuthorizationCodeGrant 900 604800 20 ⟨"at2", "rt2", "RT2", 2, 3⟩
  c3Run1.2.1 c3Run1.2.2 c3Req

/-- A web-session token pair minted for user 7 at time 0 under key pair 10. -/
def c4Pair : Auth.TokenPair × List Auth.RefreshToken :=
  Auth.CreateTokenPair 10 900 604800 0 ⟨"jti1", "rid1", "RT1", 0⟩ [] 7 "UA" "IP"

/-- A registered, active, non-confidential (public) client. -/
def publicClient : Client.Client :=
  { clientID := "abc", clientSecret := ⟨0, "unset"⟩, clientName := "App",
    redirectURIs := ["https://app.test/cb"], scope := "profile email",
    isConfidential := false, isActive := true, ownerID := 1 }

/-- A well-signed, unexpired OAuth access token with jti "jti1". -/
def c6Token : Jwt.SignedJwt :=
  { claims := { jti := "jti1", sub := some 7, aud := some "abc", scope := some "profile",
                iat := 0, exp := 900, iss := "oauth-server", type := some "access",
                userId := none },
    alg := "RS256", key := 10 }

/-- A token store whose row for jti "jti1" is marked revoked. -/
def c6Store : Token.TokenStore :=
  ⟨[{ tokenID := "jti1", tokenHash := ⟨0, "h"⟩, clientID := "abc", userID := 7,
      scope := "profile", expiresAt := 900, createdAt := 0, isRevoked := true }],
   [], []⟩

/-- The same store with the row for jti "jti1" not revoked. -/
def c6FreshStore : Token.TokenStore :=
  ⟨[{ tokenID := "jti1", tokenHash := ⟨0, "h"⟩, clientID := "abc", userID := 7,
      scope := "profile", expiresAt := 900, createdAt := 0, isRevoked := false }],
   [], []⟩

/-- An authorize request naming a client that is not registered, with a
non-empty redirect_uri that therefore was never validated. -/
def c7Req : OAuth.AuthorizeRequest :=
  { responseType := "code", clientID := "nosuch",
    redirectURI := "https://attacker.example/cb", scope := "profile",
    state := "xyz", codeChallenge := "", codeChallengeMethod := "" }

/-- A stored OAuth refresh-token row with scope "profile email". -/
def c8Row : Token.RefreshToken :=
  { tokenID := "rt1", tokenHash := ⟨5, "TOK"⟩, accessTokenID := "at1",
    clientID := "abc", userID := 7, scope := "profile email", expiresAt := 1000,
    createdAt := 0, isRevoked := false }

def c8Store : Token.TokenStore :=
  ⟨[{ tokenID := "at1", tokenHash := ⟨4, "x"⟩, clientID := "abc", userID := 7,
      scope := "profile email", expiresAt := 900, createdAt := 0, isRevoked := false }],
   [c8Row], []⟩

/-- A stored, valid web refresh-token row for user 7. -/
def c9Row : Auth.RefreshToken :=
  { id := "rid1", userID := 7, token := ⟨3, "WEBTOK"⟩, expiresAt := 1000,
    createdAt := 0, isRevoked := false, userAgent := "UA", ipAddress := "IP" }

/-- The same row already revoked (reuse-detection scenario), next to a
second live token of the same user. -/
def c9RevokedRow : Auth.RefreshToken :=
  { id := "rid1", userID := 7, token := ⟨3, "WEBTOK"⟩, expiresAt := 1000,
    createdAt := 0, isRevoked := true, userAgent := "UA", ipAddress := "IP" }

def c9OtherRow : Auth.RefreshToken :=
  { id := "rid9", userID := 7, token := ⟨6, "OTHERTOK"⟩, expiresAt := 1000,
    createdAt := 0, isRevoked := false, userAgent := "UA", ipAddress := "IP" }

def c9e : Auth.Entropy := ⟨"jti2", "rid2", "RT2", 4⟩

end Fixtures

set_option maxRecDepth 10000 in
/-- Sanity check of the SHA-256 / base64url embedding against the
RFC 7636 appendix B example pair, which §8 of the spec also quotes. -/
theorem s256_rfc7636_example :
    Pkce.VerifyCodeChallenge "dBjftJeZ4CVP-mB92K27uhbUJU1p1r_wW1gFWFOEjXk"
      "E9Melhoa2OwvFrEMTJguCHaoeK1t8URWbuGJSstw-cM" "S256" = true := by decide

/-- C10: `VerifyCodeChallenge verifier challenge method` returns true iff
either the method is "plain" and verifier equals challenge byte-for-byte,
or the method is "S256" and the unpadded URL-safe base64 encoding of
SHA-256(verifier) equals the challenge byte-for-byte; every other method
returns false. -/
theorem verifyCodeChallenge_spec (codeVerifier codeChallenge method : String) :
    Pkce.VerifyCodeChallenge codeVerifier codeChallenge method = true ↔
      ((method = "plain" ∧ codeVerifier = codeChallenge) ∨
        (method = "S256" ∧
          Crypto.base64RawURL (Crypto.sha256 (Crypto.strBytes codeVerifier)) =
            codeChallenge)) := by
  unfold Pkce.VerifyCodeChallenge
  by_cases h1 : method = "plain"
  · simp [h1]
  · by_cases h2 : method = "S256" <;> simp [h1, h2]

/-- C1: the claim says the mark-as-used operation is a compare-and-set
that affects zero rows and fails on a code whose `is_used` flag is already
true.  On the code, `MarkCodeAsUsed` carries no `is_used = false`
condition: on an already-used code the update still matches the row (one
row affected) and the operation succeeds. -/
theorem markCodeAsUsed_accepts_used_code :
    OAuth.markCodeAsUsedRows [usedCodeRow] "CODE" = 1 ∧
    OAuth.MarkCodeAsUsed [usedCodeRow] "CODE" = .ok [usedCodeRow] :=
  ⟨by decide, by rfl⟩

/-- C2: the claim says an issued, unrevoked, unexpired refresh token
presented with its bound client and empty scope refreshes successfully.
On the code, `RefreshTokens` hashes the presented token with a fresh
bcrypt salt and looks the row up by hash equality, which cannot match the
hash stored at issuance under a different salt: the round trip fails with
"invalid token". -/
theorem oauth_issue_then_refresh_fails :
    c2Issued.2.refreshTokens =
      [{ tokenID := "rt1", tokenHash := ⟨1, "RT1VALUE"⟩, accessTokenID := "at1",
         clientID := "abc", userID := 7, scope := "profile", expiresAt := 604800,
         createdAt := 0, isRevoked := false }] ∧
    Token.RefreshTokens 900 604800 5 4 c2e2 c2Issued.2 c2Issued.1.refreshToken
      "abc" "" = .error (Errors.unauthorized "invalid token") :=
  ⟨by decide, by rfl⟩

/-- C3: the claim says replaying a consumed code fails InvalidGrant and in
addition revokes the access tokens previously issued from that code.  On
the code, the replay does fail `invalid_grant`, but `CreateTokens` never
records the code-to-token association that `RevokeAccessTokensByAuthCode`
queries, so the previously issued access token "at1" stays unrevoked. -/
theorem code_replay_revokes_no_tokens :
    c3Run1.1 = .ok { accessToken := "jwt.at1.7.abc.profile.10.910.oauth-server.access",
                     tokenType := "Bearer", expiresIn := 900, refreshToken := "RT1",
                     scope := "profile" } ∧
    c3Run2.1 = .error (Errors.badRequest "invalid_grant") ∧
    c3Run2.2.2.authCodeTokens = [] ∧
    c3Run2.2.2.accessTokens.map (fun t => (t.tokenID, t.isRevoked)) =
      [("at1", false)] :=
  ⟨by rfl, by rfl, by decide, by decide⟩

/-- C4: the claim says validating a freshly minted web-session access JWT
succeeds and returns the minting user id.  On the code, the signature,
exp, issuer and type checks all pass, but `CreateTokenPair` writes the
user id only into `sub` while `ValidateAccessTokenWithClaims` reads the
`user_id` claim, so validation fails Unauthorized with "invalid user ID in
token" instead of returning user 7. -/
theorem web_mint_validate_roundtrip_fails :
    Jwt.parseValid 10 100 c4Pair.1.accessToken = true ∧
    c4Pair.1.accessToken.claims.iss = "verigate-web" ∧
    c4Pair.1.accessToken.claims.type = some "access" ∧
    c4Pair.1.accessToken.claims.sub = some 7 ∧
    Jwt.ValidateAccessTokenWithClaims 10 100 c4Pair.1.accessToken "verigate-web" =
      .error (Errors.unauthorized "invalid user ID in token") :=
  ⟨by decide, by decide, by decide, by decide, by rfl⟩

/-- C5 counterexample: the claim says a public client fails with
InvalidClient whenever any non-empty secret is presented.  On the code, a
registered active public client presenting the non-empty secret "s3cr3t"
passes token-endpoint client validation, because `ValidateClient` only
verifies secrets for confidential clients. -/
theorem public_client_nonempty_secret_accepted :
    Client.TokenClientAuth [publicClient] "abc" "s3cr3t" = .ok () := by rfl

/-- C5 amended: for every registered active public (non-confidential)
client, token-endpoint client validation succeeds when the supplied
secret is empty, and it also succeeds for every non-empty secret, since
`ValidateClient` skips secret verification for non-confidential
clients. -/
theorem public_client_auth_ignores_secret (clients : List Client.Client)
    (clientID clientSecret : String) (c : Client.Client)
    (hfind : Client.FindByClientID clients clientID = some c)
    (hpub : c.isConfidential = false) (hact : c.isActive = true) :
    Client.TokenClientAuth clients clientID clientSecret = .ok () := by
  unfold Client.TokenClientAuth Client.ValidateClient Client.IsPublicClient
  rw [hfind]
  by_cases hs : clientSecret = "" <;> simp [hs, hpub, hact]

/-- C5 witness: the amended statement instantiated at the concrete public
client, with empty and non-empty secrets. -/
theorem public_client_auth_ignores_secret_witness :
    Client.FindByClientID [publicClient] "abc" = some publicClient ∧
    publicClient.isConfidential = false ∧ publicClient.isActive = true ∧
    Client.TokenClientAuth [publicClient] "abc" "anything" = .ok () ∧
    Client.TokenClientAuth [publicClient] "abc" "" = .ok () :=
  ⟨by rfl, by decide, by decide,
   public_client_auth_ignores_secret [publicClient] "abc" "anything" publicClient
     (by decide) (by decide) (by decide),
   public_client_auth_ignores_secret [publicClient] "abc" "" publicClient
     (by decide) (by decide) (by decide)⟩

/-- C6 counterexample: the claim asserts the validation used by
GET /oauth/userinfo verifies signature and exp and then gates on the jti
revocation flag.  At a well-signed, unexpired token whose stored row is
NOT revoked, that claimed validation accepts, but the guard the source
installs (`middleware.Auth`) rejects it 401: its typed-claims decode
fails on the numeric `sub` claim, so the endpoint's validation is not the
one the claim describes. -/
theorem userinfo_guard_is_not_claimed_validation :
    Middleware.specValidateAccess 10 100 c6FreshStore c6Token = .ok 7 ∧
    Middleware.Auth 10 100 c6Token = .error (Errors.unauthorized "invalid token") :=
  ⟨by rfl, by rfl⟩

/-- C6 amended: a revoked OAuth access token is indeed rejected
Unauthorized at GET /oauth/userinfo, but not through a revocation lookup:
every access token the server mints writes `sub` as a JSON number, the
typed-claims decode of `jwt.ValidateToken` fails on it, and
`middleware.Auth` (which consults no token store) therefore rejects every
such token — revoked or not — with 401; the jti revocation flag is never
consulted. -/
theorem userinfo_guard_rejects_every_minted_token
    (pubKey : Nat) (now : Int) (t : Jwt.SignedJwt) (u : Nat)
    (hsub : t.claims.sub = some u) :
    Middleware.Auth pubKey now t = .error (Errors.unauthorized "invalid token") := by
  unfold Middleware.Auth Jwt.ValidateToken Jwt.decodeTypedClaims
  rw [hsub]

/-- C6 witness: the amended statement at the concrete minted token whose
stored row is revoked. -/
theorem userinfo_guard_rejects_every_minted_token_witness :
    c6Token.claims.sub = some 7 ∧
    Token.IsAccessTokenRevoked c6Store "jti1" = .ok true ∧
    Middleware.Auth 10 100 c6Token = .error (Errors.unauthorized "invalid token") :=
  ⟨by rfl, by rfl,
   userinfo_guard_rejects_every_minted_token 10 100 c6Token 7 (by rfl)⟩

/-- C7: the claim says errors raised before the redirect URI has been
validated (here: unknown client) are returned as a JSON body without
redirecting.  On the code, `redirectError` falls back to JSON only when
the supplied redirect_uri is empty, so the unknown-client error is
302-redirected to the never-validated URI. -/
theorem authorize_error_redirects_unvalidated_uri :
    OAuth.HandlerAuthorize [] [] [] 0 "NEWCODE" [] c7Req 7 =
      (.redirectTo
        "https://attacker.example/cb?error=server_error&error_description=invalid_client&state=xyz",
       []) := by rfl

/-- C8: for every OAuth refresh whose hash lookup finds a stored row with
scope S: if the requested scope R is non-empty and not a subset of S
(space-separated exact tokens) the refresh fails; and whenever the refresh
succeeds, the scope of the minted pair is exactly R when R is non-empty
and exactly S when R is empty. -/
theorem oauth_refresh_scope_non_escalation
    (accessExpiry refreshExpiry now salt : Nat) (e : Token.Entropy)
    (st : Token.TokenStore) (refreshToken clientID requestedScope : String)
    (row : Token.RefreshToken)
    (hfind : Token.FindRefreshTokenByHash st (Hash.HashPassword salt refreshToken)
      = some row) :
    (requestedScope ≠ "" → Token.isScopeSubset requestedScope row.scope = false →
      ∀ resp st1, Token.RefreshTokens accessExpiry refreshExpiry now salt e st
        refreshToken clientID requestedScope ≠ .ok (resp, st1)) ∧
    (∀ resp st1, Token.RefreshTokens accessExpiry refreshExpiry now salt e st
        refreshToken clientID requestedScope = .ok (resp, st1) →
      resp.scope = if requestedScope = "" then row.scope else requestedScope) := by
  constructor
  · intro hne hsub resp st1 h
    simp only [Token.RefreshTokens, hfind] at h
    split at h
    · exact Except.noConfusion h
    split at h
    · exact Except.noConfusion h
    split at h
    · exact Except.noConfusion h
    split at h
    · exact Except.noConfusion h
    · rename_i hg
      exact hg ⟨hne, by simp [hsub]⟩
  · intro resp st1 h
    simp only [Token.RefreshTokens, hfind] at h
    split at h
    · exact Except.noConfusion h
    split at h
    · exact Except.noConfusion h
    split at h
    · exact Except.noConfusion h
    split at h
    · exact Except.noConfusion h
    · split at h
      · exact Except.noConfusion h
      · rename_i hg _ _
        have h2 := congrArg (fun p => p.1.scope) (Except.ok.inj h)
        simp only [Token.CreateTokens] at h2
        by_cases hrs : requestedScope = ""
        · simp only [hrs] at h2 ⊢
          simpa using h2.symm
        · simp only [hrs] at h2 ⊢
          simpa [hrs] using h2.symm

/-- C8 witness: the scope non-escalation theorem instantiated at a
concrete store and a narrowing refresh request. -/
theorem oauth_refresh_scope_non_escalation_witness :
    Token.FindRefreshTokenByHash c8Store (Hash.HashPassword 5 "TOK") = some c8Row ∧
    ((("profile" : String) ≠ "" →
        Token.isScopeSubset "profile" c8Row.scope = false →
        ∀ resp st1, Token.RefreshTokens 900 604800 10 5 ⟨"at2", "rt2", "RT2", 8, 9⟩
          c8Store "TOK" "abc" "profile" ≠ .ok (resp, st1)) ∧
      (∀ resp st1, Token.RefreshTokens 900 604800 10 5 ⟨"at2", "rt2", "RT2", 8, 9⟩
          c8Store "TOK" "abc" "profile" = .ok (resp, st1) →
        resp.scope = if ("profile" : String) = "" then c8Row.scope else "profile")) :=
  ⟨by rfl,
   oauth_refresh_scope_non_escalation 900 604800 10 5 ⟨"at2", "rt2", "RT2", 8, 9⟩
     c8Store "TOK" "abc" "profile" c8Row (by rfl)⟩

/-- C9: for every presented web refresh token found in the store: if the
found row is already revoked, every refresh token of that user is revoked
(family kill) and the operation fails; if it is valid and unexpired, the
presented row is revoked in the resulting store and the freshly minted
pair is returned. -/
theorem web_refresh_rotation_reuse_detection
    (privKey : Nat) (accessExpiry refreshExpiry now : Int) (e : Auth.Entropy)
    (st : List Auth.RefreshToken) (refreshToken userAgent ipAddress : String)
    (t : Auth.RefreshToken)
    (hfind : Auth.FindRefreshTokenByToken st refreshToken = some t) :
    (t.isRevoked = true →
      (Auth.RefreshTokens privKey accessExpiry refreshExpiry now e st refreshToken
          userAgent ipAddress).1 =
        .error (Errors.unauthorized "refresh token has been revoked") ∧
      ∀ r ∈ (Auth.RefreshTokens privKey accessExpiry refreshExpiry now e st
          refreshToken userAgent ipAddress).2,
        r.userID = t.userID → r.isRevoked = true) ∧
    (t.isRevoked = false → ¬ now > t.expiresAt → e.refreshTokenID ≠ t.id →
      (∃ pair, (Auth.RefreshTokens privKey accessExpiry refreshExpiry now e st
          refreshToken userAgent ipAddress).1 = .ok pair ∧
        pair.refreshToken = e.refreshTokenValue ∧
        pair.accessToken.claims.sub = some t.userID) ∧
      ∀ r ∈ (Auth.RefreshTokens privKey accessExpiry refreshExpiry now e st
          refreshToken userAgent ipAddress).2,
        r.id = t.id → r.isRevoked = true) := by
  have hmem : t ∈ st := List.mem_of_find?_eq_some hfind
  constructor
  · intro hrev
    have heqa : Auth.RefreshTokens privKey accessExpiry refreshExpiry now e st
        refreshToken userAgent ipAddress =
        (.error (Errors.unauthorized "refresh token has been revoked"),
         Auth.RevokeAllUserRefreshTokens st t.userID) := by
      simp only [Auth.RefreshTokens, hfind]
      rw [if_pos hrev]
    rw [heqa]
    refine ⟨rfl, ?_⟩
    intro r hr hru
    unfold Auth.RevokeAllUserRefreshTokens at hr
    obtain ⟨s, hs, rfl⟩ := List.mem_map.mp hr
    by_cases hsu : (s.userID == t.userID) = true
    · simp [hsu]
    · rw [if_neg hsu]
      rw [if_neg hsu] at hru
      exact absurd (by simpa using hru) (by simpa using hsu)
  · intro hrev hexp hne
    have hRepo : Auth.RevokeRefreshTokenRepo st t.id =
        .ok (st.map fun x => if x.id == t.id then { x with isRevoked := true } else x) := by
      unfold Auth.RevokeRefreshTokenRepo
      rw [if_pos]
      exact List.any_eq_true.mpr ⟨t, hmem, by simp⟩
    have heqb : Auth.RefreshTokens privKey accessExpiry refreshExpiry now e st
        refreshToken userAgent ipAddress =
        (.ok ⟨⟨⟨e.tokenID, some t.userID, none, none, now, now + accessExpiry,
                "verigate-web", some "access", none⟩, "RS256", privKey⟩,
              e.refreshTokenValue, now + accessExpiry, now + refreshExpiry⟩,
         (st.map fun x => if x.id == t.id then { x with isRevoked := true } else x) ++
           [⟨e.refreshTokenID, t.userID, ⟨e.refreshSalt, e.refreshTokenValue⟩,
             now + refreshExpiry, now, false, userAgent, ipAddress⟩]) := by
      simp only [Auth.RefreshTokens, hfind]
      rw [if_neg (by simp [hrev]), if_neg hexp, hRepo]
      rfl
    rw [heqb]
    refine ⟨⟨_, rfl, rfl, rfl⟩, ?_⟩
    intro r hr hrid
    rcases List.mem_append.mp hr with h1 | h1
    · obtain ⟨s, hs, rfl⟩ := List.mem_map.mp h1
      by_cases hsid : (s.id == t.id) = true
      · simp [hsid]
      · rw [if_neg hsid]
        rw [if_neg hsid] at hrid
        exact absurd (by simpa using hrid) (by simpa using hsid)
    · rw [List.mem_singleton] at h1
      subst h1
      exact absurd hrid hne

/-- C9 witness: the rotation theorem instantiated at a concrete store on
both the valid-token path and the already-revoked reuse path. -/
theorem web_refresh_rotation_reuse_detection_witness :
    (Auth.FindRefreshTokenByToken [c9Row] "WEBTOK" = some c9Row ∧
      (∃ pair, (Auth.RefreshTokens 10 900 604800 5 c9e [c9Row] "WEBTOK" "UA" "IP").1 =
          .ok pair ∧
        pair.refreshToken = c9e.refreshTokenValue ∧
        pair.accessToken.claims.sub = some c9Row.userID) ∧
      (∀ r ∈ (Auth.RefreshTokens 10 900 604800 5 c9e [c9Row] "WEBTOK" "UA" "IP").2,
        r.id = c9Row.id → r.isRevoked = true)) ∧
    (Auth.FindRefreshTokenByToken [c9RevokedRow, c9OtherRow] "WEBTOK" =
        some c9RevokedRow ∧
      (Auth.RefreshTokens 10 900 604800 5 c9e [c9RevokedRow, c9OtherRow] "WEBTOK"
          "UA" "IP").1 =
        .error (Errors.unauthorized "refresh token has been revoked") ∧
      (∀ r ∈ (Auth.RefreshTokens 10 900 604800 5 c9e [c9RevokedRow, c9OtherRow]
          "WEBTOK" "UA" "IP").2,
        r.userID = c9RevokedRow.userID → r.isRevoked = true)) := by
  constructor
  · have h := (web_refresh_rotation_reuse_detection 10 900 604800 5 c9e [c9Row]
      "WEBTOK" "UA" "IP" c9Row (by rfl)).2 (by decide) (by decide) (by decide)
    exact ⟨by rfl, h.1, h.2⟩
  · have h := (web_refresh_rotation_reuse_detection 10 900 604800 5 c9e
      [c9RevokedRow, c9OtherRow] "WEBTOK" "UA" "IP" c9RevokedRow (by rfl)).1
      (by decide)
    exact ⟨by rfl, h.1, h.2⟩
